import Mathlib

/-
  Verification of the Github-Repo-Manager webhook bot core.

  Shallow embedding of the Python sources:
    src/app.py                               (signature verification, webhook route)
    src/services/github/github_auth.py       (installation-token cache)
    src/services/github/github_events.py     (event dispatch, command parsing, review job)
    src/services/openai/planner.py           (budget table rendering)
    src/services/openai/models.py            (model table, cost estimation)

  External effects (HTTP calls to GitHub / OpenAI, tiktoken, float formatting)
  are modelled as oracle fields of an `Effects` record: each field is the
  outcome of the corresponding call.  Machine floats in models.py are modelled
  with exact rationals; the decimal rendering of a price is an oracle.
-/

namespace RepoBot

instance exceptDecEq {ε α : Type} [DecidableEq ε] [DecidableEq α] :
    DecidableEq (Except ε α) := fun x y =>
  match x, y with
  | .ok a, .ok b =>
    if h : a = b then .isTrue (by rw [h]) else .isFalse (by simp [h])
  | .error a, .error b =>
    if h : a = b then .isTrue (by rw [h]) else .isFalse (by simp [h])
  | .ok _, .error _ => .isFalse (by simp)
  | .error _, .ok _ => .isFalse (by simp)

/-- Python exception values, as far as the embedded code distinguishes them. -/
inductive PyExc where
  | typeError
  | indexError
  | keyError
  | httpError
  | other (n : Nat)
deriving DecidableEq, Repr

/-- Message text of an exception, as produced by Python `str(e)` (used in
f-strings that interpolate the caught exception). -/
def pyExcMessage : PyExc → String
  | .typeError => "review_pull_request() takes from 3 to 4 positional arguments but 7 were given"
  | .indexError => "list index out of range"
  | .keyError => "KeyError"
  | .httpError => "HTTPError"
  | .other n => "error " ++ toString n

/-! ### Python string primitives

All primitives are defined over the character sequence (`String.data`) so
that they reduce inside the kernel. -/

/-- Python `s.strip()` on a character list. -/
def pyTrimList (l : List Char) : List Char :=
  ((l.dropWhile Char.isWhitespace).reverse.dropWhile Char.isWhitespace).reverse

/-- Python `s.strip()`. -/
def pyTrim (s : String) : String :=
  String.mk (pyTrimList s.data)

/-- Python `s.lower()` (ASCII case folding, which covers every string the
embedded code lowercases). -/
def pyLower (s : String) : String :=
  String.mk (s.data.map Char.toLower)

/-- Python `s.startswith(pre)`. -/
def pyStartsWith (s pre : String) : Bool :=
  pre.data.isPrefixOf s.data

/-- Python `s.endswith(suf)`. -/
def pyEndsWith (s suf : String) : Bool :=
  suf.data.isSuffixOf s.data

/-- Python `c in s` for a single character. -/
def pyContains (s : String) (c : Char) : Bool :=
  s.data.contains c

def pySplitWsAux : List Char → List Char → List (List Char)
  | [], acc => if acc = [] then [] else [acc.reverse]
  | x :: xs, acc =>
    if x.isWhitespace then
      if acc = [] then pySplitWsAux xs []
      else acc.reverse :: pySplitWsAux xs []
    else pySplitWsAux xs (x :: acc)

/-- Python `s.split()` (no argument): split on whitespace runs, no empty parts. -/
def pySplitWs (s : String) : List String :=
  (pySplitWsAux s.data []).map String.mk

def pySplitCharAux (c : Char) : List Char → List Char → List (List Char)
  | [], acc => [acc.reverse]
  | x :: xs, acc =>
    if x = c then acc.reverse :: pySplitCharAux c xs []
    else pySplitCharAux c xs (x :: acc)

/-- Split on every occurrence of one character (Python `s.split(c)`). -/
def pySplitChar (c : Char) (s : String) : List String :=
  (pySplitCharAux c s.data []).map String.mk

/-- Python `s.splitlines()` restricted to the newline character:
splitting on a trailing terminator produces no final empty entry, and the
empty string yields no lines at all. -/
def pySplitlines (s : String) : List String :=
  let l := pySplitChar '\n' s
  if l.getLast? = some "" then l.dropLast else l

def splitOnceAux (c : Char) : List Char → Option (List Char × List Char)
  | [] => none
  | x :: xs =>
    if x = c then some ([], xs)
    else
      match splitOnceAux c xs with
      | none => none
      | some (a, b) => some (x :: a, b)

/-- Python `s.split(c, 1)` followed by 2-tuple unpacking: `none` models the
`ValueError` raised when the separator does not occur. -/
def pySplitOnce (c : Char) (s : String) : Option (String × String) :=
  match splitOnceAux c s.data with
  | none => none
  | some (a, b) => some (String.mk a, String.mk b)

/-- Python truthiness of an optional string (`None` and `""` are falsy). -/
def pyTruthyStr : Option String → Bool
  | none => false
  | some s => s ≠ ""

/-- Python truthiness of an optional integer (`None` and `0` are falsy). -/
def pyTruthyNat : Option Nat → Bool
  | none => false
  | some n => n ≠ 0

/-! ### SignatureVerifier (src/app.py, `verify_signature`) -/

inductive SigError where
  | missingSecret
  | missingSignature
  | malformedSignature
  | unsupportedScheme
  | signatureMismatch
deriving DecidableEq, Repr

/-- Embedding of `hmac.compare_digest` on two hex digest strings: a constant-time equality
check, extensionally plain string equality. -/
def compareDigest (a b : String) : Bool :=
  a == b

/-- Embedding of `verify_signature` from src/app.py.  `hmacHex` stands for
`hmac.new(secret, body, hashlib.sha256).hexdigest()` (Python standard
library); `secret` and `rawBody` are byte sequences. -/
def verify_signature (hmacHex : List Nat → List Nat → String)
    (secret rawBody : List Nat) (signatureHeader : String) : Except SigError Unit :=
  if secret = [] then .error .missingSecret
  else if signatureHeader = "" then .error .missingSignature
  else
    match pySplitOnce '=' signatureHeader with
    | none => .error .malformedSignature
    | some (scheme, receivedSig) =>
      if pyLower scheme ≠ "sha256" then .error .unsupportedScheme
      else
        let computedSig := hmacHex secret rawBody
        if compareDigest receivedSig computedSig then .ok ()
        else .error .signatureMismatch

/-! ### CredentialCache (src/services/github/github_auth.py) -/

structure TokenEntry where
  token : String
  exp_epoch : Int
deriving DecidableEq, Repr

/-- The module-level `_token_cache` dict, as an association list. -/
abbrev TokenCache := List (Nat × TokenEntry)

def cacheGet : TokenCache → Nat → Option TokenEntry
  | [], _ => none
  | (k, e) :: rest, iid => if k = iid then some e else cacheGet rest iid

/-- Dict assignment `_token_cache[installation_id] = {...}` (overwrite). -/
def cacheSet : TokenCache → Nat → TokenEntry → TokenCache
  | [], iid, e => [(iid, e)]
  | (k, e0) :: rest, iid, e =>
    if k = iid then (iid, e) :: rest else (k, e0) :: cacheSet rest iid e

/-- Outcome of the token exchange: the JWT construction, the POST to the
access-tokens endpoint, `raise_for_status`, and parsing `expires_at`. -/
structure TokenExchange where
  token : String
  exp_epoch : Int
deriving DecidableEq, Repr

/-- Embedding of `get_installation_token` from src/services/github/github_auth.py, with
`time.time()` passed as `now` and the network exchange passed as its outcome.
Returns the token, the updated `_token_cache`, and whether a network exchange
was performed. -/
def get_installation_token (now : Int) (exchange : Except PyExc TokenExchange)
    (cache : TokenCache) (iid : Nat) : Except PyExc (String × TokenCache × Bool) :=
  match cacheGet cache iid with
  | some entry =>
    if now < entry.exp_epoch - 60 then .ok (entry.token, cache, false)
    else
      match exchange with
      | .error e => .error e
      | .ok ex => .ok (ex.token, cacheSet cache iid ⟨ex.token, ex.exp_epoch⟩, true)
  | none =>
    match exchange with
    | .error e => .error e
    | .ok ex => .ok (ex.token, cacheSet cache iid ⟨ex.token, ex.exp_epoch⟩, true)

/-! ### Webhook payload model

One record covering every field the handlers in github_events.py read.
`Option` models an absent JSON key (Python `dict.get`); GitHub sub-objects
are collapsed to the fields the code reaches through them. -/

structure RepoNode where
  ownerLogin : Option String
  name : Option String
deriving DecidableEq, Repr

structure PrNode where
  number : Option Nat
  title : Option String
  body : Option String
  draft : Bool
deriving DecidableEq, Repr

structure CommentNode where
  body : Option String
  userLogin : Option String
deriving DecidableEq, Repr

structure IssueNode where
  number : Option Nat
  hasPullRequest : Bool
deriving DecidableEq, Repr

structure Payload where
  action : Option String
  repository : Option RepoNode
  orgLogin : Option String
  instAccountLogin : Option String
  installationId : Option Nat
  number : Option Nat
  pullRequest : Option PrNode
  comment : Option CommentNode
  issue : Option IssueNode
deriving DecidableEq, Repr

/-- Embedding of `extract_owner_repo` from src/services/github/github_utils.py. -/
def extract_owner_repo (p : Payload) : Option String × Option String :=
  match p.repository with
  | some r => (r.ownerLogin, r.name)
  | none =>
    match p.orgLogin with
    | some o => (some o, none)
    | none =>
      match p.instAccountLogin with
      | some a => (some a, none)
      | none => (none, none)

/-- Outbound side effect emitted by a handler.  `post` is a
`post_comment(owner, repo, number, token, body)` call, `job` is the
`threading.Thread(target=_run_review_job, ...).start()` submission. -/
inductive GhAction where
  | post (owner repo : Option String) (number : Option Nat) (body : String)
  | job (iid : Nat) (owner repo : String) (pr : Nat) (model : String)
      (opts : List (String × String)) (placeholderId : Nat)
deriving DecidableEq, Repr

/-- Oracle record: the outcome of each external call a handler may make.
`post_comment`, `update_comment`, `fetch_pr_files` and `fetch_pr_commits`
are repository functions imported from `.github_actions` but absent from
that module; modelled from the spec: GitHubClient can "create an issue/PR
comment (returns an id); update a comment by id; fetch paginated PR file
diffs; fetch paginated PR commits". -/
structure Effects where
  /-- Outcome of `get_installation_token` (network + module cache collapsed). -/
  tokenRes : Except PyExc String
  /-- Outcome of a second `get_installation_token` call made inside the
  error handler of `_run_review_job`. -/
  tokenRes2 : Except PyExc String
  /-- Outcome of `fetch_pr_files` / the files `_fetch`; the JSON content is
  only ever funnelled into token counting, which is itself an oracle. -/
  filesRes : Except PyExc Unit
  /-- Outcome of `fetch_pr_commits` / the commits `_fetch`. -/
  commitsRes : Except PyExc Unit
  /-- Modelled from the spec: `post_comment` creates a comment and returns an id. -/
  postRes : Except PyExc Nat
  /-- Modelled from the spec: `update_comment` updates a comment by id. -/
  updateRes : Except PyExc Unit
  /-- Result of `count_tokens_messages` (tiktoken, external library). -/
  tokensCount : Nat
  /-- Python float rendering `f"{x:.4f}"` applied to a price. -/
  fmt4 : ℚ → String
  /-- Python integer rendering `f"{n:,}"` with thousands separators. -/
  fmtThousands : Nat → String

/-! ### Model table (src/services/openai/models.py, planner.py) -/

structure ModelInfo where
  id : String
  encoding : String
  in_per_mtok : ℚ
  out_per_mtok : ℚ
deriving DecidableEq, Repr

/-- The `MODELS` table from src/services/openai/models.py (prices in USD per 1M tokens). -/
def MODELS : List (String × ModelInfo) :=
  [("gpt5", ⟨"gpt-5", "o200k_base", 125/100, 10⟩),
   ("gpt5mini", ⟨"gpt-5-mini", "o200k_base", 25/100, 125/100⟩),
   ("gpt4omini", ⟨"gpt-4o-mini", "o200k_base", 15/100, 60/100⟩)]

/-- The `AVAILABLE` list from src/services/openai/planner.py. -/
def AVAILABLE : List String := ["gpt-5", "gpt-5-mini", "gpt-4o-mini"]

/-- Embedding of `estimate_cost` from src/services/openai/models.py, with Python floats
modelled as exact rationals. -/
def estimate_cost (tokens_in : Nat) (max_out : Nat) (m : ModelInfo)
    (cachedRatio : ℚ) : ℚ :=
  let billable_in : ℚ := max ((tokens_in : ℚ) * (1 - max 0 (min 1 cachedRatio))) 0
  let cost_in := (billable_in / 1000000) * m.in_per_mtok
  let cost_out := ((max_out : ℚ) / 1000000) * m.out_per_mtok
  cost_in + cost_out

/-- One iteration of the loop body of `make_price_table`: the list
comprehension `[k for k, v in MODELS.items() if v["id"] == model_key][0]`
raises `IndexError` when no key matches. -/
def priceFor (tokens_in max_out : Nat) (cachedRatio : ℚ) (mk : String) :
    Except PyExc ℚ :=
  match MODELS.find? (fun kv => kv.2.id = mk) with
  | none => .error .indexError
  | some kv => .ok (estimate_cost tokens_in max_out kv.2 cachedRatio)

/-- Embedding of `make_price_table` from src/services/openai/planner.py; `tokens_in`
(the `count_tokens_messages` result) is supplied by the oracle.  The loop
over the three model ids is unrolled. -/
def make_price_table (tokens_in : Nat) (max_out : Nat) (cachedRatio : ℚ) :
    Except PyExc (Nat × List (String × ℚ)) :=
  match priceFor tokens_in max_out cachedRatio "gpt-5",
        priceFor tokens_in max_out cachedRatio "gpt-5-mini",
        priceFor tokens_in max_out cachedRatio "gpt-4o-mini" with
  | .ok p5, .ok p5m, .ok p4om =>
    .ok (tokens_in, [("gpt-5", p5), ("gpt-5-mini", p5m), ("gpt-4o-mini", p4om)])
  | .error e, _, _ => .error e
  | _, .error e, _ => .error e
  | _, _, .error e => .error e

/-- The comment text built by `render_budget_comment`, with the three looked-up
prices as arguments. -/
def budgetBody (fmtTh : Nat → String) (fmt4 : ℚ → String)
    (tokens_in : Nat) (p5 p5m p4om : ℚ) : String :=
  "### 🤖 Presupuesto de análisis con IA (estimado)\n\n- Tokens de entrada (conservador): **"
    ++ fmtTh tokens_in
    ++ "**\n\n| Modelo | Est. costo |\n|---|---|\n"
    ++ "| gpt-5 | $" ++ fmt4 p5 ++ " |\n"
    ++ "| gpt-5-mini | $" ++ fmt4 p5m ++ " |\n"
    ++ "| gpt-4o-mini | $" ++ fmt4 p4om ++ " |\n\n"
    ++ "Para ejecutar el análisis, comenta en este PR:\n\n- `/bot review gpt-5`\n- `/bot review gpt-5-mini`\n- `/bot review gpt-4o-mini`\n\n"
    ++ "Parámetros opcionales: `max:<tokens_salida>` y `temp:<0..2>` (si el modelo lo soporta). Ejemplos:\n\n- `/bot review gpt-5-mini max:1500`\n- `/bot review gpt-4o-mini max:1200 temp:0.7`\n\n"
    ++ "Ayuda: `/bot models` o `/bot help`"

/-- Embedding of `render_budget_comment` from src/services/openai/planner.py.  The two
numeric interpolations `{tokens_in:,}` and `{price:.4f}` are rendered by the
oracle's formatting functions; a missing dict key raises `KeyError`. -/
def render_budget_comment (fmtTh : Nat → String) (fmt4 : ℚ → String)
    (tokens_in : Nat) (prices : List (String × ℚ)) : Except PyExc String :=
  match prices.lookup "gpt-5", prices.lookup "gpt-5-mini", prices.lookup "gpt-4o-mini" with
  | some p5, some p5m, some p4om => .ok (budgetBody fmtTh fmt4 tokens_in p5 p5m p4om)
  | _, _, _ => .error .keyError

/-! ### Event handlers (src/services/github/github_events.py) -/

/-- Embedding of `BOT_LOGIN = os.environ.get("GITHUB_BOT_LOGIN", "").strip().lower()`;
the raw environment value is a parameter. -/
def BOT_LOGIN (envVal : String) : String :=
  pyLower (pyTrim envVal)

/-- Embedding of `_handle_pull_request` from github_events.py.  Returns the Python result
(`True`) together with the trace of posted comments; an uncaught exception
from `get_installation_token` / `_fetch` / `post_comment` propagates. -/
def _handle_pull_request (fx : Effects) (p : Payload) :
    Except PyExc (Bool × List GhAction) :=
  let repo := (p.repository.getD ⟨none, none⟩)
  let owner := repo.ownerLogin
  let name := repo.name
  let pr := p.pullRequest.getD ⟨none, none, none, false⟩
  let number := if pyTruthyNat pr.number then pr.number else p.number
  let action := p.action
  if action ≠ some "opened" ∧ action ≠ some "synchronize" ∧ action ≠ some "ready_for_review" then
    .ok (true, [])
  else
    match fx.tokenRes with
    | .error e => .error e
    | .ok _token =>
      match fx.filesRes with
      | .error e => .error e
      | .ok _ =>
        match fx.commitsRes with
        | .error e => .error e
        | .ok _ =>
          match make_price_table fx.tokensCount 1200 0 with
          | .error e => .error e
          | .ok (tokens_in, prices) =>
            match render_budget_comment fx.fmtThousands fx.fmt4 tokens_in prices with
            | .error e => .error e
            | .ok body =>
              match fx.postRes with
              | .error e => .error e
              | .ok _id => .ok (true, [.post owner name number body])

/-- The update step of the dict built by `_parse_bot_command`'s option loop:
`opts[k] = v` overwrites an existing key. -/
def optsSet : List (String × String) → String → String → List (String × String)
  | [], k, v => [(k, v)]
  | (k0, v0) :: rest, k, v =>
    if k0 = k then (k, v) :: rest else (k0, v0) :: optsSet rest k v

/-- The token loop of `_parse_bot_command` over `parts[2:]`. -/
def parseOptsLoop : List String → List String × List (String × String) →
    List String × List (String × String)
  | [], acc => acc
  | tk :: rest, (args, opts) =>
    if pyContains tk ':' then
      match pySplitOnce ':' tk with
      | some (k, v) => parseOptsLoop rest (args, optsSet opts (pyLower (pyTrim k)) (pyTrim v))
      | none => parseOptsLoop rest (args, opts)
    else
      parseOptsLoop rest (args ++ [pyTrim tk], opts)

/-- Embedding of `_parse_bot_command` from github_events.py: returns `(cmd, args, opts)`
for lines like `/bot review gpt-5-mini max:1500 temp:0.8`. -/
def _parse_bot_command (body : String) : String × List String × List (String × String) :=
  let body := pyTrim body
  if ¬ pyStartsWith body "/bot " then ("", [], [])
  else
    let parts := pySplitWs body
    let cmd := if parts.length > 1 then (parts.get? 1).getD "" else ""
    let (args, opts) := parseOptsLoop (parts.drop 2) ([], [])
    (pyLower cmd, args, opts)

/-- The `MODEL_ALIASES` dict from `_handle_issue_comment`. -/
def MODEL_ALIASES : List (String × String) :=
  [("gpt5", "gpt-5"), ("gpt-5", "gpt-5"),
   ("gpt5-mini", "gpt-5-mini"), ("gpt-5-mini", "gpt-5-mini"),
   ("4o-mini", "gpt-4o-mini"), ("gpt-4o-mini", "gpt-4o-mini")]

/-- Embedding of `_handle_issue_comment` from github_events.py.  `botLoginEnv` is the raw
`GITHUB_BOT_LOGIN` environment value.  The returned trace records posted
comments and submitted background jobs; `.error .indexError` models the
uncaught `IndexError` of `body_raw.strip().splitlines()[0]` on a body with
no lines. -/
def _handle_issue_comment (botLoginEnv : String) (fx : Effects) (p : Payload) :
    Except PyExc (Bool × List GhAction) :=
  if p.action ≠ some "created" ∧ p.action ≠ some "edited" then .ok (true, [])
  else
    let comment := p.comment.getD ⟨none, none⟩
    let user_login := pyLower (pyTrim (comment.userLogin.getD ""))
    if user_login = BOT_LOGIN botLoginEnv ∨ pyEndsWith user_login "[bot]" then .ok (true, [])
    else
      let body_raw := comment.body.getD ""
      match (pySplitlines (pyTrim body_raw)).head?.map (fun l => pyTrim l) with
      | none => .error .indexError
      | some first_line =>
        if ¬ pyStartsWith (pyLower first_line) "/bot " then .ok (true, [])
        else
          let parts := pySplitWs first_line
          if parts.length < 3 ∨ pyLower ((parts.get? 1).getD "") ≠ "review" then .ok (true, [])
          else
            let aliasTok := pyLower ((parts.get? 2).getD "")
            let model? := MODEL_ALIASES.lookup aliasTok
            let repoNode := p.repository.getD ⟨none, none⟩
            let owner := repoNode.ownerLogin
            let repo := repoNode.name
            let issue := p.issue.getD ⟨none, false⟩
            if ¬ issue.hasPullRequest then
              if pyTruthyStr owner ∧ pyTruthyStr repo then
                match p.installationId with
                | some iid =>
                  if iid ≠ 0 then
                    match fx.tokenRes with
                    | .error _ => .ok (true, [])
                    | .ok _tok =>
                      match fx.postRes with
                      | .error _ => .ok (true, [])
                      | .ok _ => .ok (true, [.post owner repo issue.number
                          "Este comando solo funciona en *Pull Requests*."])
                  else .ok (true, [])
                | none => .ok (true, [])
              else .ok (true, [])
            else
              match model? with
              | none =>
                if pyTruthyStr owner ∧ pyTruthyStr repo ∧ pyTruthyNat p.installationId then
                  match fx.tokenRes with
                  | .error _ => .ok (true, [])
                  | .ok _tok =>
                    match fx.postRes with
                    | .error _ => .ok (true, [])
                    | .ok _ =>
                      .ok (true, [.post owner repo issue.number
                        ("Modelo no soportado. Usa: `gpt-5`, `gpt-5-mini` o `gpt-4o-mini`.\n"
                          ++ "Ejemplo: `/bot review gpt-5-mini`")])
                else .ok (true, [])
              | some model =>
                if ¬ (pyTruthyStr owner ∧ pyTruthyStr repo ∧ pyTruthyNat issue.number
                      ∧ pyTruthyNat p.installationId) then .ok (true, [])
                else
                  match fx.tokenRes with
                  | .error _ => .ok (true, [])
                  | .ok _tok =>
                    match fx.postRes with
                    | .error _ => .ok (true, [])
                    | .ok placeholderId =>
                      let placeholder : GhAction := .post owner repo issue.number
                        ("🧠 Ejecutando revisión con **" ++ model
                          ++ "**…\n\n*(esto puede tardar unos segundos)*")
                      .ok (true, [placeholder,
                        .job (p.installationId.getD 0) (owner.getD "") (repo.getD "")
                          (issue.number.getD 0) model [] placeholderId])

/-- Embedding of `handle_github_event` from github_events.py (the dispatcher).  The two
installation handlers iterate over the payload's repository list as a no-op
and return `True`; they are collapsed to that result. -/
def handle_github_event (botLoginEnv : String) (fx : Effects) (event : String)
    (p : Payload) (allowedOwners : List String) :
    Except PyExc (Bool × List GhAction) :=
  let owner := (extract_owner_repo p).1
  if allowedOwners ≠ [] ∧ (¬ pyTruthyStr owner ∨ (owner.getD "") ∉ allowedOwners) then
    .ok (true, [])
  else
    let action := p.action
    if event = "installation" ∧ action = some "created" then .ok (true, [])
    else if event = "installation_repositories" ∧ action = some "added" then .ok (true, [])
    else if event = "pull_request" then _handle_pull_request fx p
    else if event = "issue_comment" then _handle_issue_comment botLoginEnv fx p
    else .ok (false, [])

/-! ### ReviewJobRunner (`_run_review_job` in github_events.py) -/

/-- The body of the `try` block of `_run_review_job`, with the outcome of the
`review_pull_request(...)` call abstracted as `reviewRes`.  Returns the
Python control outcome together with the bodies passed to successful
`update_comment` calls. -/
def runReviewTry (fx : Effects) (reviewRes : Except PyExc String) (model : String) :
    Except PyExc Unit × List String :=
  match fx.tokenRes with
  | .error e => (.error e, [])
  | .ok _token =>
    match fx.filesRes with
    | .error e => (.error e, [])
    | .ok _ =>
      match fx.commitsRes with
      | .error e => (.error e, [])
      | .ok _ =>
        match reviewRes with
        | .error e => (.error e, [])
        | .ok review_md =>
          let review_md :=
            if review_md = "" ∨ pyTrim review_md = "" then
              "⚠️ La revisión no produjo contenido."
            else review_md
          let body := "**Revisión (" ++ model ++ ")**\n\n" ++ review_md
          match fx.updateRes with
          | .error e => (.error e, [])
          | .ok _ => (.ok (), [body])

/-- Embedding of `token if 'token' in locals() else get_installation_token(installation_id)`
in the exception handler of `_run_review_job`: the name `token` is bound iff
the first resolution succeeded. -/
def recoverToken (fx : Effects) : Except PyExc String :=
  match fx.tokenRes with
  | .ok t => .ok t
  | .error _ => fx.tokenRes2

/-- The `except Exception as e:` handler of `_run_review_job`: re-resolve the
token when the first resolution never succeeded, attempt a best-effort
placeholder update with the error text, and swallow any failure of that
attempt. -/
def runReviewHandler (fx : Effects) (e : PyExc) : Except PyExc Unit × List String :=
  match recoverToken fx with
  | .error _ => (.ok (), [])
  | .ok _tok =>
    match fx.updateRes with
    | .error _ => (.ok (), [])
    | .ok _ => (.ok (), ["**Error ejecutando la revisión:** `" ++ pyExcMessage e ++ "`"])

/-- Embedding of `_run_review_job` with the review-call outcome abstracted: `try` body,
then the exception handler on failure. -/
def runReviewJobWith (fx : Effects) (reviewRes : Except PyExc String) (model : String) :
    Except PyExc Unit × List String :=
  match runReviewTry fx reviewRes model with
  | (.ok _, tr) => (.ok (), tr)
  | (.error e, tr) => ((runReviewHandler fx e).1, tr ++ (runReviewHandler fx e).2)

/-- The outcome of the call
`review_pull_request(model, owner, repo, pr_number, files, commits, opts)`
in `_run_review_job`.  `review_pull_request` (src/services/openai/requests.py)
accepts at most 4 positional parameters
(`pr_details, pr_files, pr_commits, security_findings`), so this 7-argument
positional call raises `TypeError` before the function body runs. -/
def reviewCallResult : Except PyExc String :=
  .error .typeError

/-- Embedding of `_run_review_job` from github_events.py, as shipped: the review call is
the mismatched 7-argument call. -/
def _run_review_job (fx : Effects) (model : String) : Except PyExc Unit × List String :=
  runReviewJobWith fx reviewCallResult model

/-- Two successive handlings of the same delivery (same event name, same
payload, same external-world behaviour): `handle_github_event` keeps no
inter-delivery state, so the second handling is another plain call. -/
def handle_github_event_twice (botLoginEnv : String) (fx : Effects) (event : String)
    (p : Payload) (allowedOwners : List String) :
    Except PyExc ((Bool × List GhAction) × (Bool × List GhAction)) :=
  match handle_github_event botLoginEnv fx event p allowedOwners with
  | .error e => .error e
  | .ok r1 =>
    match handle_github_event botLoginEnv fx event p allowedOwners with
    | .error e => .error e
    | .ok r2 => .ok (r1, r2)

/-- Predicate: the first string occurs as a contiguous substring of the second. -/
def ContainsStr (needle hay : String) : Prop :=
  ∃ a b : String, hay = a ++ needle ++ b

/-! ### Concrete fixtures used by witness and counterexample theorems -/

/-- An environment in which every external call succeeds. -/
def fxOk : Effects :=
  ⟨.ok "tok", .ok "tok2", .ok (), .ok (), .ok 77, .ok (), 1000,
   fun _ => "0.0000", fun _ => "1,000"⟩

/-- A well-formed `pull_request` payload for repo alice/repo, PR 12. -/
def prPayload (act : String) (draft : Bool) : Payload :=
  ⟨some act, some ⟨some "alice", some "repo"⟩, none, none, some 5,
   none, some ⟨some 12, some "T", some "B", draft⟩, none, none⟩

/-- A well-formed `issue_comment` payload on PR 12 of alice/repo. -/
def icPayload (act login body : String) : Payload :=
  ⟨some act, some ⟨some "alice", some "repo"⟩, none, none, some 5,
   none, none, some ⟨some body, some login⟩, some ⟨some 12, true⟩⟩

/-- The same payload with the comment body replaced (the comment author and
all other fields kept). -/
def withBody (p : Payload) (b : String) : Payload :=
  { p with comment := some ⟨some b, (p.comment.getD ⟨none, none⟩).userLogin⟩ }

/-! ### Supporting lemmas -/

theorem splitOnceAux_sha256 (l : List Char) :
    splitOnceAux '=' ("sha256=".data ++ l) = some ("sha256".data, l) := by
  show splitOnceAux '=' ('s' :: 'h' :: 'a' :: '2' :: '5' :: '6' :: '=' :: l) = _
  simp +decide [splitOnceAux]

theorem pySplitOnce_sha256 (r : String) :
    pySplitOnce '=' ("sha256=" ++ r) = some ("sha256", r) := by
  unfold pySplitOnce
  rw [String.data_append, splitOnceAux_sha256]

theorem sha256_header_ne_empty (r : String) : ("sha256=" ++ r) ≠ "" := by
  intro h
  have h2 := congrArg String.data h
  rw [String.data_append] at h2
  simp at h2

theorem cacheGet_cacheSet (c : TokenCache) (iid : Nat) (e : TokenEntry) :
    cacheGet (cacheSet c iid e) iid = some e := by
  induction c with
  | nil => simp [cacheSet, cacheGet]
  | cons hd tl ih =>
    obtain ⟨k, e0⟩ := hd
    by_cases hk : k = iid
    · simp [cacheSet, hk, cacheGet]
    · simp [cacheSet, hk, cacheGet, ih]

/-! ### C5: signature verification -/

/-- C5: for every configured (non-empty) secret and raw body, verifying the
header `"sha256=" ++ hexHMAC(secret, body)` succeeds, and verifying a header
whose digest part is any other string fails with `signatureMismatch`. -/
theorem C5_verify_signature (hmacHex : List Nat → List Nat → String)
    (secret rawBody : List Nat) (hsec : secret ≠ []) :
    verify_signature hmacHex secret rawBody ("sha256=" ++ hmacHex secret rawBody) = .ok ()
    ∧ ∀ r : String, r ≠ hmacHex secret rawBody →
        verify_signature hmacHex secret rawBody ("sha256=" ++ r) = .error .signatureMismatch := by
  constructor
  · unfold verify_signature
    rw [if_neg hsec, if_neg (sha256_header_ne_empty _), pySplitOnce_sha256]
    simp [compareDigest]
    decide
  · intro r hne
    unfold verify_signature
    rw [if_neg hsec, if_neg (sha256_header_ne_empty _), pySplitOnce_sha256]
    simp [compareDigest, hne]
    decide

/-- C5 witness: a concrete digest function, secret and body. -/
theorem C5_verify_signature_witness :
    verify_signature (fun _ _ => "ab12") [1, 2] [3] "sha256=ab12" = .ok ()
    ∧ verify_signature (fun _ _ => "ab12") [1, 2] [3] "sha256=ab13" = .error .signatureMismatch := by
  have h := C5_verify_signature (fun _ _ => "ab12") [1, 2] [3] (by decide)
  exact ⟨h.1, h.2 "ab13" (by decide)⟩

/-! ### C6: installation-token cache -/

/-- C6: starting from a cache with no entry for `iid`, the first call performs
the one network exchange and stores the token; a second call made while the
cached token has strictly more than 60 seconds of remaining lifetime returns
the cached token with no exchange.  A call made with 60 seconds or less of
remaining lifetime (or past expiry) performs a new exchange and overwrites the
cached entry for that installation id. -/
theorem C6_get_installation_token :
    (∀ (iid : Nat) (now1 now2 : Int) (tok : String) (exp : Int)
       (ex2 : Except PyExc TokenExchange) (cache0 : TokenCache),
      cacheGet cache0 iid = none →
      now2 < exp - 60 →
      get_installation_token now1 (.ok ⟨tok, exp⟩) cache0 iid
          = .ok (tok, cacheSet cache0 iid ⟨tok, exp⟩, true)
        ∧ get_installation_token now2 ex2 (cacheSet cache0 iid ⟨tok, exp⟩) iid
          = .ok (tok, cacheSet cache0 iid ⟨tok, exp⟩, false))
    ∧ (∀ (iid : Nat) (now : Int) (cache : TokenCache) (entry : TokenEntry)
         (tok2 : String) (exp2 : Int),
      cacheGet cache iid = some entry →
      ¬ now < entry.exp_epoch - 60 →
      get_installation_token now (.ok ⟨tok2, exp2⟩) cache iid
          = .ok (tok2, cacheSet cache iid ⟨tok2, exp2⟩, true)
        ∧ cacheGet (cacheSet cache iid ⟨tok2, exp2⟩) iid = some ⟨tok2, exp2⟩) := by
  constructor
  · intro iid now1 now2 tok exp ex2 cache0 hmiss hfresh
    constructor
    · unfold get_installation_token
      rw [hmiss]
    · unfold get_installation_token
      rw [cacheGet_cacheSet]
      simp [hfresh]
  · intro iid now cache entry tok2 exp2 hhit hstale
    constructor
    · unfold get_installation_token
      rw [hhit]
      simp [hstale]
    · exact cacheGet_cacheSet ..

/-- C6 witness: installation 7, token expiring at epoch 4000; the second call
at time 3000 (1000 s of remaining lifetime) is served from the cache; a later
call at 3941 (59 s remaining) exchanges again and overwrites. -/
theorem C6_get_installation_token_witness :
    (get_installation_token 100 (.ok ⟨"t1", 4000⟩) [] 7 = .ok ("t1", [(7, ⟨"t1", 4000⟩)], true)
      ∧ get_installation_token 3000 (.error .httpError) [(7, ⟨"t1", 4000⟩)] 7
          = .ok ("t1", [(7, ⟨"t1", 4000⟩)], false))
    ∧ (get_installation_token 3941 (.ok ⟨"t2", 8000⟩) [(7, ⟨"t1", 4000⟩)] 7
          = .ok ("t2", [(7, ⟨"t2", 8000⟩)], true)
        ∧ cacheGet [(7, ⟨"t2", 8000⟩)] 7 = some ⟨"t2", 8000⟩) := by
  have h1 := (C6_get_installation_token.1 7 100 3000 "t1" 4000 (.error .httpError) []
    (by decide) (by decide))
  have h2 := (C6_get_installation_token.2 7 3941 [(7, ⟨"t1", 4000⟩)] ⟨"t1", 4000⟩ "t2" 8000
    (by decide) (by decide))
  exact ⟨⟨h1.1, h1.2⟩, ⟨h2.1, h2.2⟩⟩

/-! ### C7: command parsing -/

/-- C7 counterexample: a malformed value for the recognised key `max` is kept
verbatim in the options, not dropped and not validated. -/
theorem C7_counterexample :
    _parse_bot_command "/bot review gpt-5-mini max:abc"
      = ("review", ["gpt-5-mini"], [("max", "abc")])
    ∧ (_parse_bot_command "/bot review gpt-5-mini max:abc").2.2.lookup "max" = some "abc" := by
  constructor <;> decide

/-! ### C2, C4: the review job -/

theorem runReviewHandler_fst (fx : Effects) (e : PyExc) :
    (runReviewHandler fx e).1 = .ok () := by
  unfold runReviewHandler
  cases recoverToken fx with
  | error _ => rfl
  | ok _ =>
    cases h : fx.updateRes with
    | error _ => simp [h]
    | ok _ => simp [h]

/-- C4: the review job never propagates an exception — whatever the outcome
of token resolution, data fetch, model invocation and comment update, the job
terminates normally (both for an arbitrary review-call outcome and for the
shipped `_run_review_job`); and when the try-body fails while the handler's
token resolution and comment update succeed, the failure is converted into a
placeholder update containing the error text. -/
theorem C4_run_review_job (fx : Effects) (reviewRes : Except PyExc String) (model : String) :
    (runReviewJobWith fx reviewRes model).1 = .ok ()
    ∧ (_run_review_job fx model).1 = .ok ()
    ∧ (∀ (e : PyExc) (tr : List String) (t : String),
        runReviewTry fx reviewRes model = (.error e, tr) →
        recoverToken fx = .ok t → fx.updateRes = .ok () →
        runReviewJobWith fx reviewRes model =
          (.ok (), tr ++ ["**Error ejecutando la revisión:** `" ++ pyExcMessage e ++ "`"])) := by
  have key : ∀ rr : Except PyExc String, (runReviewJobWith fx rr model).1 = .ok () := by
    intro rr
    unfold runReviewJobWith
    rcases h : runReviewTry fx rr model with ⟨r, tr⟩
    cases r with
    | ok u => rfl
    | error e => simpa using runReviewHandler_fst fx e
  refine ⟨key reviewRes, key reviewCallResult, ?_⟩
  intro e tr t htry hrec hupd
  unfold runReviewJobWith
  rw [htry]
  simp [runReviewHandler, hrec, hupd]

/-- C4 witness: with every external call succeeding and a review call that
throws, the job ends normally and the placeholder receives the error text. -/
theorem C4_run_review_job_witness :
    (_run_review_job fxOk "gpt-5").1 = .ok ()
    ∧ runReviewJobWith fxOk (.error (.other 3)) "gpt-5" =
        (.ok (), ["**Error ejecutando la revisión:** `" ++ pyExcMessage (.other 3) ++ "`"]) :=
  ⟨(C4_run_review_job fxOk reviewCallResult "gpt-5").2.1,
   (C4_run_review_job fxOk (.error (.other 3)) "gpt-5").2.2 (.other 3) [] "tok"
     (by decide) (by decide) (by decide)⟩

/-- C2: with every external call succeeding, the shipped `_run_review_job`
still updates the placeholder with the `TypeError` text of the mismatched
7-positional-argument call to `review_pull_request`, never with a review:
the non-empty-result path of the job is unreachable. -/
theorem C2_run_review_job (fx : Effects) (model tk : String)
    (htok : fx.tokenRes = .ok tk) (hfiles : fx.filesRes = .ok ())
    (hcommits : fx.commitsRes = .ok ()) (hupd : fx.updateRes = .ok ()) :
    _run_review_job fx model =
      (.ok (), ["**Error ejecutando la revisión:** `review_pull_request() takes from 3 to 4 positional arguments but 7 were given`"]) := by
  unfold _run_review_job runReviewJobWith reviewCallResult
  have htry : runReviewTry fx (.error .typeError) model = (.error .typeError, []) := by
    unfold runReviewTry
    rw [htok, hfiles, hcommits]
  rw [htry]
  simp [runReviewHandler, recoverToken, htok, hupd, pyExcMessage]

/-- C2 witness: concrete all-succeeding environment. -/
theorem C2_run_review_job_witness :
    _run_review_job fxOk "gpt-5-mini" =
      (.ok (), ["**Error ejecutando la revisión:** `review_pull_request() takes from 3 to 4 positional arguments but 7 were given`"]) :=
  C2_run_review_job fxOk "gpt-5-mini" "tok" rfl rfl rfl rfl

/-- C7 (amended): parsing `/bot review gpt-5-mini max:1500 temp:0.7` yields
command `review`, argument list `[gpt-5-mini]` and the uninterpreted string
options `max ↦ 1500`, `temp ↦ 0.7`; no validation of recognised keys takes
place. -/
theorem C7_parse_bot_command :
    _parse_bot_command "/bot review gpt-5-mini max:1500 temp:0.7"
      = ("review", ["gpt-5-mini"], [("max", "1500"), ("temp", "0.7")]) := by
  decide

/-! ### C8, C9, C10: the issue_comment handler -/

/-- C8 counterexample: an `issue_comment` with action `edited` (not `created`)
from an ordinary user does trigger command processing — a placeholder comment
is posted and a review job is submitted. -/
theorem C8_counterexample :
    _handle_issue_comment "mybot" fxOk (icPayload "edited" "someone" "/bot review gpt-5")
      = .ok (true,
        [.post (some "alice") (some "repo") (some 12)
          "🧠 Ejecutando revisión con **gpt-5**…\n\n*(esto puede tardar unos segundos)*",
         .job 5 "alice" "repo" 12 "gpt-5" [] 77]) := by
  decide

/-- C8 (amended): the handler processes a command only when the action is
`created` or `edited` and the author is neither the bot login nor any login
ending in `[bot]`; for a bot author or any other action it returns with no
comment posted and no job submitted. -/
theorem C8_self_reply_guard (bot : String) (fx : Effects) (p : Payload)
    (h : pyLower (pyTrim ((p.comment.getD ⟨none, none⟩).userLogin.getD "")) = BOT_LOGIN bot
      ∨ pyEndsWith (pyLower (pyTrim ((p.comment.getD ⟨none, none⟩).userLogin.getD ""))) "[bot]" = true
      ∨ (p.action ≠ some "created" ∧ p.action ≠ some "edited")) :
    _handle_issue_comment bot fx p = .ok (true, []) := by
  unfold _handle_issue_comment
  by_cases ha : p.action ≠ some "created" ∧ p.action ≠ some "edited"
  · rw [if_pos ha]
  · rw [if_neg ha]
    rcases h with h | h | h
    · rw [if_pos (Or.inl h)]
    · rw [if_pos (Or.inr h)]
    · exact absurd h ha

/-- C8 witness: a comment by the bot's own login containing `/bot review
gpt-5` produces no comment and no job. -/
theorem C8_self_reply_guard_witness :
    _handle_issue_comment "mybot" fxOk (icPayload "created" "mybot" "/bot review gpt-5")
      = .ok (true, []) :=
  C8_self_reply_guard "mybot" fxOk (icPayload "created" "mybot" "/bot review gpt-5")
    (Or.inl (by decide))

/-- C9 counterexample: two comment bodies with the same first line on which
`_parse_bot_command` yields different commands — the parser tokenises the
whole body, not only the first line. -/
theorem C9_counterexample :
    (pySplitlines "/bot review m").head? = (pySplitlines "/bot review m\ntemp:0.9").head?
    ∧ _parse_bot_command "/bot review m" ≠ _parse_bot_command "/bot review m\ntemp:0.9" := by
  decide

/-- C9 (amended): the comment handler inspects the body only through the
trimmed first line of the stripped body — two bodies that agree on it are
handled identically (`_parse_bot_command`, by contrast, tokenises the whole
body). -/
theorem C9_first_line_only (bot : String) (fx : Effects) (p : Payload) (b1 b2 : String)
    (hfl : (pySplitlines (pyTrim b1)).head?.map (fun l => pyTrim l)
         = (pySplitlines (pyTrim b2)).head?.map (fun l => pyTrim l)) :
    _handle_issue_comment bot fx (withBody p b1) = _handle_issue_comment bot fx (withBody p b2) := by
  unfold _handle_issue_comment withBody
  simp only [Option.getD_some]
  rw [hfl]

/-- C9 witness: text after the first line does not change the handling. -/
theorem C9_first_line_only_witness :
    _handle_issue_comment "mybot" fxOk (icPayload "created" "alice" "/bot review gpt-5")
      = _handle_issue_comment "mybot" fxOk (icPayload "created" "alice" "/bot review gpt-5\nextra line") :=
  C9_first_line_only "mybot" fxOk (icPayload "created" "alice" "") "/bot review gpt-5"
    "/bot review gpt-5\nextra line" (by decide)

/-- C10 counterexample: an `issue_comment` whose body is only whitespace makes
the handler raise `IndexError` instead of returning. -/
theorem C10_counterexample :
    _handle_issue_comment "mybot" fxOk (icPayload "created" "someone" "   \n  ")
      = .error .indexError := by
  decide

/-- C10 (amended): for action `created`/`edited` and a non-bot author, a
comment body that strips to the empty string makes `_handle_issue_comment`
raise `IndexError` (first-line extraction on a body with no lines), rather
than return. -/
theorem C10_empty_body_raises (bot : String) (fx : Effects) (p : Payload)
    (hact : p.action = some "created" ∨ p.action = some "edited")
    (hlogin : ¬ (pyLower (pyTrim ((p.comment.getD ⟨none, none⟩).userLogin.getD "")) = BOT_LOGIN bot
      ∨ pyEndsWith (pyLower (pyTrim ((p.comment.getD ⟨none, none⟩).userLogin.getD ""))) "[bot]" = true))
    (hbody : pyTrim ((p.comment.getD ⟨none, none⟩).body.getD "") = "") :
    _handle_issue_comment bot fx p = .error .indexError := by
  unfold _handle_issue_comment
  have ha : ¬ (p.action ≠ some "created" ∧ p.action ≠ some "edited") := by
    rcases hact with h | h <;> simp [h]
  rw [if_neg ha, if_neg hlogin]
  have hsl : pySplitlines "" = ([] : List String) := by decide
  simp [hbody, hsl]

/-- C10 witness: whitespace-only body from an ordinary author. -/
theorem C10_empty_body_raises_witness :
    _handle_issue_comment "mybot" fxOk (icPayload "created" "someone" "   \n  ")
      = .error .indexError :=
  C10_empty_body_raises "mybot" fxOk (icPayload "created" "someone" "   \n  ")
    (Or.inl (by decide)) (by decide) (by decide)

/-! ### C1, C3: pull_request handling and (absence of) deduplication -/

theorem make_price_table_eval (t : Nat) :
    make_price_table t 1200 0 = .ok (t,
      [("gpt-5", estimate_cost t 1200 ⟨"gpt-5", "o200k_base", 125/100, 10⟩ 0),
       ("gpt-5-mini", estimate_cost t 1200 ⟨"gpt-5-mini", "o200k_base", 25/100, 125/100⟩ 0),
       ("gpt-4o-mini", estimate_cost t 1200 ⟨"gpt-4o-mini", "o200k_base", 15/100, 60/100⟩ 0)]) :=
  rfl

theorem render_budget_comment_eval (fT : Nat → String) (f4 : ℚ → String) (t : Nat) (a b c : ℚ) :
    render_budget_comment fT f4 t [("gpt-5", a), ("gpt-5-mini", b), ("gpt-4o-mini", c)]
      = .ok (budgetBody fT f4 t a b c) :=
  rfl

theorem budgetBody_contains_rows (fT : Nat → String) (f4 : ℚ → String) (t : Nat) (a b c : ℚ) :
    ContainsStr "| gpt-5 | $" (budgetBody fT f4 t a b c)
    ∧ ContainsStr "| gpt-5-mini | $" (budgetBody fT f4 t a b c)
    ∧ ContainsStr "| gpt-4o-mini | $" (budgetBody fT f4 t a b c) := by
  refine ⟨⟨"### 🤖 Presupuesto de análisis con IA (estimado)\n\n- Tokens de entrada (conservador): **"
      ++ fT t ++ "**\n\n| Modelo | Est. costo |\n|---|---|\n",
      f4 a ++ " |\n" ++ "| gpt-5-mini | $" ++ f4 b ++ " |\n" ++ "| gpt-4o-mini | $" ++ f4 c
        ++ " |\n\n"
        ++ "Para ejecutar el análisis, comenta en este PR:\n\n- `/bot review gpt-5`\n- `/bot review gpt-5-mini`\n- `/bot review gpt-4o-mini`\n\n"
        ++ "Parámetros opcionales: `max:<tokens_salida>` y `temp:<0..2>` (si el modelo lo soporta). Ejemplos:\n\n- `/bot review gpt-5-mini max:1500`\n- `/bot review gpt-4o-mini max:1200 temp:0.7`\n\n"
        ++ "Ayuda: `/bot models` o `/bot help`", ?_⟩,
    ⟨"### 🤖 Presupuesto de análisis con IA (estimado)\n\n- Tokens de entrada (conservador): **"
      ++ fT t ++ "**\n\n| Modelo | Est. costo |\n|---|---|\n" ++ "| gpt-5 | $" ++ f4 a ++ " |\n",
      f4 b ++ " |\n" ++ "| gpt-4o-mini | $" ++ f4 c ++ " |\n\n"
        ++ "Para ejecutar el análisis, comenta en este PR:\n\n- `/bot review gpt-5`\n- `/bot review gpt-5-mini`\n- `/bot review gpt-4o-mini`\n\n"
        ++ "Parámetros opcionales: `max:<tokens_salida>` y `temp:<0..2>` (si el modelo lo soporta). Ejemplos:\n\n- `/bot review gpt-5-mini max:1500`\n- `/bot review gpt-4o-mini max:1200 temp:0.7`\n\n"
        ++ "Ayuda: `/bot models` o `/bot help`", ?_⟩,
    ⟨"### 🤖 Presupuesto de análisis con IA (estimado)\n\n- Tokens de entrada (conservador): **"
      ++ fT t ++ "**\n\n| Modelo | Est. costo |\n|---|---|\n" ++ "| gpt-5 | $" ++ f4 a ++ " |\n"
      ++ "| gpt-5-mini | $" ++ f4 b ++ " |\n",
      f4 c ++ " |\n\n"
        ++ "Para ejecutar el análisis, comenta en este PR:\n\n- `/bot review gpt-5`\n- `/bot review gpt-5-mini`\n- `/bot review gpt-4o-mini`\n\n"
        ++ "Parámetros opcionales: `max:<tokens_salida>` y `temp:<0..2>` (si el modelo lo soporta). Ejemplos:\n\n- `/bot review gpt-5-mini max:1500`\n- `/bot review gpt-4o-mini max:1200 temp:0.7`\n\n"
        ++ "Ayuda: `/bot models` o `/bot help`", ?_⟩⟩ <;>
  simp [budgetBody, String.append_assoc]

/-- In a succeeding environment, a `pull_request` payload with a triggering
action makes `_handle_pull_request` post exactly one comment, whose body
contains a price row for each of the three supported models. -/
theorem pullRequestPostsBudget (fx : Effects) (p : Payload) (tk : String) (pid : Nat)
    (htok : fx.tokenRes = .ok tk) (hfiles : fx.filesRes = .ok ())
    (hcommits : fx.commitsRes = .ok ()) (hpost : fx.postRes = .ok pid)
    (hact : p.action = some "opened" ∨ p.action = some "synchronize"
      ∨ p.action = some "ready_for_review") :
    ∃ ow nm num body, _handle_pull_request fx p = .ok (true, [.post ow nm num body])
      ∧ ContainsStr "| gpt-5 | $" body ∧ ContainsStr "| gpt-5-mini | $" body
      ∧ ContainsStr "| gpt-4o-mini | $" body := by
  have hcond : ¬ (p.action ≠ some "opened" ∧ p.action ≠ some "synchronize"
      ∧ p.action ≠ some "ready_for_review") := by
    rcases hact with h | h | h <;> simp [h]
  have hres : _handle_pull_request fx p = .ok (true,
      [.post (p.repository.getD ⟨none, none⟩).ownerLogin (p.repository.getD ⟨none, none⟩).name
        (if pyTruthyNat (p.pullRequest.getD ⟨none, none, none, false⟩).number
          then (p.pullRequest.getD ⟨none, none, none, false⟩).number else p.number)
        (budgetBody fx.fmtThousands fx.fmt4 fx.tokensCount
          (estimate_cost fx.tokensCount 1200 ⟨"gpt-5", "o200k_base", 125/100, 10⟩ 0)
          (estimate_cost fx.tokensCount 1200 ⟨"gpt-5-mini", "o200k_base", 25/100, 125/100⟩ 0)
          (estimate_cost fx.tokensCount 1200 ⟨"gpt-4o-mini", "o200k_base", 15/100, 60/100⟩ 0))]) := by
    simp only [_handle_pull_request, if_neg hcond, htok, hfiles, hcommits, hpost,
      make_price_table_eval, render_budget_comment_eval]
  exact ⟨_, _, _, _, hres,
    (budgetBody_contains_rows fx.fmtThousands fx.fmt4 fx.tokensCount _ _ _).1,
    (budgetBody_contains_rows fx.fmtThousands fx.fmt4 fx.tokensCount _ _ _).2.1,
    (budgetBody_contains_rows fx.fmtThousands fx.fmt4 fx.tokensCount _ _ _).2.2⟩

/-- C3 (amended): a `pull_request` event with action `opened`, `synchronize`
or `ready_for_review` — draft or not — makes `_handle_pull_request` post
exactly one comment containing a cost row for every supported model; any
other action (including `reopened`) posts nothing. -/
theorem C3_pull_request_budget (fx : Effects) (p : Payload) (tk : String) (pid : Nat)
    (htok : fx.tokenRes = .ok tk) (hfiles : fx.filesRes = .ok ())
    (hcommits : fx.commitsRes = .ok ()) (hpost : fx.postRes = .ok pid) :
    ((p.action = some "opened" ∨ p.action = some "synchronize"
        ∨ p.action = some "ready_for_review") →
      ∃ ow nm num body, _handle_pull_request fx p = .ok (true, [.post ow nm num body])
        ∧ ContainsStr "| gpt-5 | $" body ∧ ContainsStr "| gpt-5-mini | $" body
        ∧ ContainsStr "| gpt-4o-mini | $" body)
    ∧ ((p.action ≠ some "opened" ∧ p.action ≠ some "synchronize"
        ∧ p.action ≠ some "ready_for_review") →
      _handle_pull_request fx p = .ok (true, [])) := by
  constructor
  · intro hact
    exact pullRequestPostsBudget fx p tk pid htok hfiles hcommits hpost hact
  · intro hact
    unfold _handle_pull_request
    rw [if_pos hact]

/-- C3 witness: a draft PR opened still receives the single budget comment,
and a reopened PR receives none. -/
theorem C3_pull_request_budget_witness :
    (∃ ow nm num body,
      _handle_pull_request fxOk (prPayload "opened" true) = .ok (true, [.post ow nm num body])
        ∧ ContainsStr "| gpt-5 | $" body ∧ ContainsStr "| gpt-5-mini | $" body
        ∧ ContainsStr "| gpt-4o-mini | $" body)
    ∧ _handle_pull_request fxOk (prPayload "reopened" false) = .ok (true, []) :=
  ⟨(C3_pull_request_budget fxOk (prPayload "opened" true) "tok" 77 rfl rfl rfl rfl).1
      (Or.inl rfl),
   (C3_pull_request_budget fxOk (prPayload "reopened" false) "tok" 77 rfl rfl rfl rfl).2
      (by decide)⟩

/-- C3 counterexample: a non-draft PR reopened gets no comment, while a draft
PR opened gets one — the opposite of the claimed action set and draft
exclusion. -/
theorem C3_counterexample :
    _handle_pull_request fxOk (prPayload "reopened" false) = .ok (true, [])
    ∧ (_handle_pull_request fxOk (prPayload "opened" true)).map (fun r => r.2.length)
        = .ok 1 := by
  constructor <;> decide

/-- C1 (amended): nothing in the webhook pipeline records delivery ids —
`handle_github_event` is stateless across deliveries, so handling the same
payload a second time repeats the side effect (here: posts the budget comment
again) and returns the same handled result instead of an `Ignored`
short-circuit. -/
theorem C1_no_dedup (bot : String) (fx : Effects) (p : Payload) (tk : String) (pid : Nat)
    (htok : fx.tokenRes = .ok tk) (hfiles : fx.filesRes = .ok ())
    (hcommits : fx.commitsRes = .ok ()) (hpost : fx.postRes = .ok pid)
    (hact : p.action = some "opened" ∨ p.action = some "synchronize"
      ∨ p.action = some "ready_for_review") :
    ∃ a : GhAction, handle_github_event_twice bot fx "pull_request" p []
      = .ok ((true, [a]), (true, [a])) := by
  obtain ⟨ow, nm, num, body, hres, -, -, -⟩ :=
    pullRequestPostsBudget fx p tk pid htok hfiles hcommits hpost hact
  have hdisp : handle_github_event bot fx "pull_request" p [] = _handle_pull_request fx p := rfl
  refine ⟨.post ow nm num body, ?_⟩
  unfold handle_github_event_twice
  rw [hdisp, hres]

/-- C1 witness: concrete opened-PR delivery handled twice in a succeeding
environment. -/
theorem C1_no_dedup_witness :
    ∃ a : GhAction, handle_github_event_twice "mybot" fxOk "pull_request"
      (prPayload "opened" false) [] = .ok ((true, [a]), (true, [a])) :=
  C1_no_dedup "mybot" fxOk (prPayload "opened" false) "tok" 77 rfl rfl rfl rfl (Or.inl rfl)

/-- C1 counterexample: handling the same `pull_request` delivery twice
produces one posted comment per handling — two side effects, and the second
handling does not short-circuit to an effect-free `Ignored`. -/
theorem C1_counterexample :
    (handle_github_event_twice "mybot" fxOk "pull_request" (prPayload "opened" false) []).map
      (fun r => (r.1.2.length, r.2.2.length)) = .ok (1, 1) := by
  decide

end RepoBot
